import Mathlib

/-
Verification of the GoogLeNet notebook
(`chapter_convolutional-modern/googlenet.ipynb`).

The notebook defines one block class, `Inception`, whose constructor builds
seven framework layer objects (four parallel paths) and whose `forward`
concatenates the four path outputs along the channel axis; it then assembles
five sequential groups `b1` .. `b5` plus a final `Dense(10)` into `net`, runs a
shape-printing loop over `net`, and calls a pre-existing training routine.

The development below embeds this shallowly:
  * layer constructions are a deep embedding (`PrimLayer`, `Layer`) whose
    constructor arguments are exactly the arguments of the notebook's layer
    constructor calls (defaults of the framework filled in:
    `Conv2D` defaults are `strides=1`, `padding=0`);
  * the shape behaviour of the framework primitives, which the notebook
    delegates to the external library, is modelled from the spec and the
    notebook's own prose (`convOutDim`, `primOutShape`, `ndConcatDim1`);
    shapes are `List Nat` in `(batch, channel, height, width)` order and
    failures of a framework call are `none`;
  * the value behaviour of `Inception.forward` is translated over abstract
    denotations of the seven stored sub-layer objects (`InceptionObj`), with
    the object state threaded through explicitly so that statefulness claims
    can be stated.
-/

/-- Primitive framework layers constructed by the notebook, recorded with the
arguments of the corresponding constructor call: `conv2D channels kernel
strides padding relu`, `maxPool2D poolSize strides padding`,
`globalAvgPool2D`, `dense units`. The framework defaults `strides=1`,
`padding=0` for `Conv2D` are filled in where the notebook omits them. -/
inductive PrimLayer : Type where
  | conv2D (channels kernel strides padding : Nat) (relu : Bool)
  | maxPool2D (poolSize strides padding : Nat)
  | globalAvgPool2D
  | dense (units : Nat)
deriving DecidableEq, Repr

/-- Modelled from the spec: the output-size rule, along one spatial dimension,
of the framework's convolution and pooling layers (the spec delegates
"convolution, pooling" to the external library). A `kernel`-wide window slides
with the given stride over the input padded by `padding` on both sides; the
layer fails (shape mismatch) when the padded input is smaller than the
window. -/
def convOutDim (size kernel strides padding : Nat) : Option Nat :=
  if kernel ≤ size + 2 * padding ∧ 0 < strides then
    some ((size + 2 * padding - kernel) / strides + 1)
  else none

/-- Modelled from the spec: the shape behaviour of the four framework layer
kinds the notebook constructs. A convolution maps `[n, c, h, w]` to
`[n, channels, h', w']`, max pooling keeps the channel count, global average
pooling reduces each channel's spatial extent to a single value (glossary of
the spec), and a dense layer flattens to `[n, units]`. Inputs of the wrong
rank make the framework call fail (`none`). -/
def primOutShape : PrimLayer → List Nat → Option (List Nat)
  | .conv2D ch k s p _, [n, _c, h, w] =>
      (convOutDim h k s p).bind fun h2 =>
      (convOutDim w k s p).bind fun w2 => some [n, ch, h2, w2]
  | .maxPool2D k s p, [n, c, h, w] =>
      (convOutDim h k s p).bind fun h2 =>
      (convOutDim w k s p).bind fun w2 => some [n, c, h2, w2]
  | .globalAvgPool2D, [n, c, h, w] =>
      if 0 < h ∧ 0 < w then some [n, c, 1, 1] else none
  | .dense u, n :: rest => if rest ≠ [] then some [n, u] else none
  | _, _ => none

/-- Modelled from the spec: the shape rule of `nd.concat(p1, p2, p3, p4,
dim=1)`, concatenation of four tensors along the channel axis. It is defined
exactly when the four shapes agree outside the channel dimension, and the
channel counts add. -/
def ndConcatDim1 (a b c d : List Nat) : Option (List Nat) :=
  match a, b, c, d with
  | [n1, c1, h1, w1], [n2, c2, h2, w2], [n3, c3, h3, w3], [n4, c4, h4, w4] =>
      if n1 = n2 ∧ n1 = n3 ∧ n1 = n4 ∧ h1 = h2 ∧ h1 = h3 ∧ h1 = h4 ∧
         w1 = w2 ∧ w1 = w3 ∧ w1 = w4 then
        some [n1, c1 + c2 + c3 + c4, h1, w1]
      else none
  | _, _, _, _ => none

/-- An `Inception` block instance: the seven sub-layer objects stored on
`self` by `Inception.__init__`. -/
structure Inception : Type where
  p1_1 : PrimLayer
  p2_1 : PrimLayer
  p2_2 : PrimLayer
  p3_1 : PrimLayer
  p3_2 : PrimLayer
  p4_1 : PrimLayer
  p4_2 : PrimLayer
deriving DecidableEq, Repr

/-- The constructor `Inception.__init__(self, c1, c2, c3, c4)` of the
notebook, field by field:
path 1 a 1x1 convolution with `c1` channels; path 2 a 1x1 convolution with
`c2[0]` channels then a 3x3 convolution (padding 1) with `c2[1]` channels;
path 3 a 1x1 convolution with `c3[0]` channels then a 5x5 convolution
(padding 2) with `c3[1]` channels; path 4 a 3x3 max pooling (stride 1,
padding 1) then a 1x1 convolution with `c4` channels. All convolutions use
relu activation. -/
def Inception.init (c1 : Nat) (c2 : Nat × Nat) (c3 : Nat × Nat) (c4 : Nat) : Inception where
  p1_1 := .conv2D c1 1 1 0 true
  p2_1 := .conv2D c2.1 1 1 0 true
  p2_2 := .conv2D c2.2 3 1 1 true
  p3_1 := .conv2D c3.1 1 1 0 true
  p3_2 := .conv2D c3.2 5 1 2 true
  p4_1 := .maxPool2D 3 1 1
  p4_2 := .conv2D c4 1 1 0 true

/-- The method `Inception.forward(self, x)` of the notebook at the shape
level, statement by statement: `p1 = self.p1_1(x)`, `p2 =
self.p2_2(self.p2_1(x))`, `p3 = self.p3_2(self.p3_1(x))`, `p4 =
self.p4_2(self.p4_1(x))`, `return nd.concat(p1, p2, p3, p4, dim=1)`. -/
def Inception.forward (self : Inception) (x : List Nat) : Option (List Nat) :=
  (primOutShape self.p1_1 x).bind fun p1 =>
  ((primOutShape self.p2_1 x).bind (primOutShape self.p2_2)).bind fun p2 =>
  ((primOutShape self.p3_1 x).bind (primOutShape self.p3_2)).bind fun p3 =>
  ((primOutShape self.p4_1 x).bind (primOutShape self.p4_2)).bind fun p4 =>
  ndConcatDim1 p1 p2 p3 p4

/-- Layers as assembled by the notebook: a primitive framework layer, an
`Inception(c1, c2, c3, c4)` instance, or an `nn.Sequential()` holding the
children added to it in order. -/
inductive Layer : Type where
  | prim (p : PrimLayer)
  | inception (c1 : Nat) (c2 : Nat × Nat) (c3 : Nat × Nat) (c4 : Nat)
  | sequential (ls : List Layer)

mutual
/-- Shape behaviour of applying a layer to a tensor: a primitive layer follows
the modelled framework rule, an Inception block runs the `forward` of the
instance its constructor built, and a Sequential pipes the tensor through its
children in order. -/
def Layer.outShape : Layer → List Nat → Option (List Nat)
  | .prim p, x => primOutShape p x
  | .inception c1 c2 c3 c4, x => (Inception.init c1 c2 c3 c4).forward x
  | .sequential ls, x => Layer.seqOutShape ls x

/-- Shape behaviour of a `Sequential`'s child list: feed the output of each
child into the next; a failing child call aborts the whole application. -/
def Layer.seqOutShape : List Layer → List Nat → Option (List Nat)
  | [], x => some x
  | l :: ls, x =>
      match Layer.outShape l x with
      | none => none
      | some y => Layer.seqOutShape ls y
end

/-- The first group of the notebook: a 64-channel 7x7 convolution (stride 2,
padding 3, relu) then 3x3 max pooling (stride 2, padding 1). -/
def b1 : Layer := .sequential [.prim (.conv2D 64 7 2 3 true), .prim (.maxPool2D 3 2 1)]

/-- The second group: a 64-channel 1x1 convolution, a 192-channel 3x3
convolution (padding 1), then 3x3 max pooling (stride 2, padding 1). -/
def b2 : Layer := .sequential
  [.prim (.conv2D 64 1 1 0 true), .prim (.conv2D 192 3 1 1 true), .prim (.maxPool2D 3 2 1)]

/-- The third group: two Inception blocks then 3x3 max pooling (stride 2,
padding 1). -/
def b3 : Layer := .sequential
  [.inception 64 (96, 128) (16, 32) 32, .inception 128 (128, 192) (32, 96) 64,
   .prim (.maxPool2D 3 2 1)]

/-- The fourth group: five Inception blocks then 3x3 max pooling (stride 2,
padding 1). -/
def b4 : Layer := .sequential
  [.inception 192 (96, 208) (16, 48) 64, .inception 160 (112, 224) (24, 64) 64,
   .inception 128 (128, 256) (24, 64) 64, .inception 112 (144, 288) (32, 64) 64,
   .inception 256 (160, 320) (32, 128) 128, .prim (.maxPool2D 3 2 1)]

/-- The fifth group: two Inception blocks then global average pooling. -/
def b5 : Layer := .sequential
  [.inception 256 (160, 320) (32, 128) 128, .inception 384 (192, 384) (48, 128) 128,
   .prim .globalAvgPool2D]

/-- The list of children added to `net` by `net.add(b1, b2, b3, b4, b5,
nn.Dense(10))`, in order; these are also the layers the notebook's
shape-printing loop `for layer in net` iterates over. -/
def netLayers : List Layer := [b1, b2, b3, b4, b5, .prim (.dense 10)]

/-- The full model `net = nn.Sequential(); net.add(b1, b2, b3, b4, b5,
nn.Dense(10))`. -/
def net : Layer := .sequential netLayers

/-- The notebook's shape-printing loop over a list of layers: starting from
`X`, each iteration rebinds `X` to the current layer's output and prints its
shape. The result is the final value of `X` together with the list of printed
shapes in print order. -/
def shapeLoop : List Layer → Option (List Nat) → Option (List Nat) × List (Option (List Nat))
  | [], X => (X, [])
  | l :: ls, X =>
      let X2 := X.bind l.outShape
      let r := shapeLoop ls X2
      (r.1, X2 :: r.2)

mutual
/-- Number of Inception block instances contained in a layer, counting through
Sequential groups. -/
def Layer.countInceptions : Layer → Nat
  | .prim _ => 0
  | .inception _ _ _ _ => 1
  | .sequential ls => Layer.countInceptionsList ls

/-- Number of Inception block instances contained in a list of layers. -/
def Layer.countInceptionsList : List Layer → Nat
  | [] => 0
  | l :: ls => Layer.countInceptions l + Layer.countInceptionsList ls
end

mutual
/-- The constructor arguments `(c1, c2, c3, c4)` of every Inception instance
contained in a layer, in left-to-right order. -/
def Layer.inceptionArgs : Layer → List (Nat × (Nat × Nat) × (Nat × Nat) × Nat)
  | .prim _ => []
  | .inception c1 c2 c3 c4 => [(c1, c2, c3, c4)]
  | .sequential ls => Layer.inceptionArgsList ls

/-- The constructor arguments of every Inception instance contained in a list
of layers, in order. -/
def Layer.inceptionArgsList : List Layer → List (Nat × (Nat × Nat) × (Nat × Nat) × Nat)
  | [] => []
  | l :: ls => Layer.inceptionArgs l ++ Layer.inceptionArgsList ls
end

/-- Sum `c1 + c2[1] + c3[1] + c4` of the per-path output-channel arguments of
one Inception instance. -/
def inceptionOutChannels (a : Nat × (Nat × Nat) × (Nat × Nat) × Nat) : Nat :=
  a.1 + a.2.1.2 + a.2.2.1.2 + a.2.2.2

/-- The learning-rate binding of the training cell, `lr = 0.1`; the decimal
literal is modelled as the exact rational it denotes. -/
def lr : ℚ := 1 / 10

/-- The epoch-count binding of the training cell, `num_epochs = 5`. -/
def num_epochs : Nat := 5

/-- The batch-size binding of the training cell, `batch_size = 128`. -/
def batch_size : Nat := 128

/-- An `Inception` block instance at the value level: the denotations, for the
layers' current weights, of the seven sub-layer objects stored on `self` by
the constructor. Each denotation is a map from input tensor to output
tensor over an abstract tensor type `V`. -/
structure InceptionObj (V : Type) : Type where
  p1_1 : V → V
  p2_1 : V → V
  p2_2 : V → V
  p3_1 : V → V
  p3_2 : V → V
  p4_1 : V → V
  p4_2 : V → V

/-- The method `Inception.forward(self, x)` at the value level, translated
statement by statement with the object state threaded through explicitly: the
body only reads `self` (it assigns to no attribute), so the returned object is
the incoming one. `concat4` is the denotation of `nd.concat(·, ·, ·, ·,
dim=1)`. -/
def InceptionObj.forward {V : Type} (concat4 : V → V → V → V → V)
    (self : InceptionObj V) (x : V) : V × InceptionObj V :=
  let p1 := self.p1_1 x
  let p2 := self.p2_2 (self.p2_1 x)
  let p3 := self.p3_2 (self.p3_1 x)
  let p4 := self.p4_2 (self.p4_1 x)
  (concat4 p1 p2 p3 p4, self)

/-- Modelled from the spec: "a plain function composing four independent
sub-computations and concatenating their results" — the spec-side description
of what the Inception class amounts to, to be compared with the translated
class method. -/
def plainFourPathFunction {V : Type} (concat4 : V → V → V → V → V)
    (f1 f2 f3 f4 : V → V) (x : V) : V :=
  concat4 (f1 x) (f2 x) (f3 x) (f4 x)

/-! Helper lemmas about the shape semantics. -/

lemma seqOutShape_nil (x : List Nat) : Layer.seqOutShape [] x = some x := rfl

lemma seqOutShape_cons (l : Layer) (ls : List Layer) (x : List Nat) :
    Layer.seqOutShape (l :: ls) x = (Layer.outShape l x).bind (Layer.seqOutShape ls) := by
  cases h : Layer.outShape l x <;> simp [Layer.seqOutShape, h]

lemma seqOutShape_append (ls1 ls2 : List Layer) (x : List Nat) :
    Layer.seqOutShape (ls1 ++ ls2) x =
      (Layer.seqOutShape ls1 x).bind (Layer.seqOutShape ls2) := by
  induction ls1 generalizing x with
  | nil => simp [Layer.seqOutShape]
  | cons l ls ih =>
      rw [List.cons_append, seqOutShape_cons, seqOutShape_cons, Option.bind_assoc]
      cases Layer.outShape l x <;> simp [ih]

lemma shapeLoop_fst (ls : List Layer) (X : Option (List Nat)) :
    (shapeLoop ls X).1 = X.bind (Layer.seqOutShape ls) := by
  induction ls generalizing X with
  | nil => cases X <;> simp [shapeLoop, Layer.seqOutShape]
  | cons l ls ih => simp [shapeLoop, ih, seqOutShape_cons, Option.bind_assoc]

lemma convOutDim_same (h k p : Nat) (hk : k = 2 * p + 1) (hh : 1 ≤ h) :
    convOutDim h k 1 p = some h := by
  subst hk
  unfold convOutDim
  rw [if_pos (by omega)]
  congr 1
  rw [Nat.div_one]
  omega

lemma inception_outShape_eq (c1 : Nat) (c2 c3 : Nat × Nat) (c4 n c h w : Nat)
    (hh : 1 ≤ h) (hw : 1 ≤ w) :
    Layer.outShape (.inception c1 c2 c3 c4) [n, c, h, w] =
      some [n, c1 + c2.2 + c3.2 + c4, h, w] := by
  show (Inception.init c1 c2 c3 c4).forward [n, c, h, w] = _
  simp [Inception.forward, Inception.init, primOutShape,
    convOutDim_same h 1 0 rfl hh, convOutDim_same w 1 0 rfl hw,
    convOutDim_same h 3 1 rfl hh, convOutDim_same w 3 1 rfl hw,
    convOutDim_same h 5 2 rfl hh, convOutDim_same w 5 2 rfl hw,
    ndConcatDim1]

lemma conv_outShape_inv (ch k s p : Nat) (r : Bool) (x y : List Nat)
    (hy : primOutShape (.conv2D ch k s p r) x = some y) :
    ∃ n c h w h2 w2, x = [n, c, h, w] ∧ y = [n, ch, h2, w2] := by
  match x with
  | [] => simp [primOutShape] at hy
  | [_] => simp [primOutShape] at hy
  | [_, _] => simp [primOutShape] at hy
  | [_, _, _] => simp [primOutShape] at hy
  | _ :: _ :: _ :: _ :: _ :: _ => simp [primOutShape] at hy
  | [n, c, h, w] =>
      simp only [primOutShape, Option.bind_eq_some, Option.some_inj] at hy
      obtain ⟨h2, _, w2, _, hy⟩ := hy
      exact ⟨n, c, h, w, h2, w2, rfl, hy.symm⟩

lemma ndConcatDim1_channels (a b c d y : List Nat)
    (hy : ndConcatDim1 a b c d = some y) :
    y.get? 1 = some ((a.get? 1).getD 0 + (b.get? 1).getD 0 +
      (c.get? 1).getD 0 + (d.get? 1).getD 0) := by
  unfold ndConcatDim1 at hy
  split at hy
  · split at hy
    · simp only [Option.some_inj] at hy
      subst hy
      simp
    · exact absurd hy (by simp)
  · exact absurd hy (by simp)

/-! The claims. -/

/-- Claim C1: `Inception.forward` applies exactly four independent
transformation paths to the same input tensor `x` — path 1 a 1x1 convolution,
path 2 a 1x1 convolution followed by a 3x3 convolution, path 3 a 1x1
convolution followed by a 5x5 convolution, path 4 a 3x3 max pooling followed
by a 1x1 convolution — and returns the concatenation of the four path outputs
along the channel axis (dim=1), and nothing else. At the value level the
result is exactly the concatenation of the four path outputs; at the shape
level, applying a constructed block is exactly the four spelled-out primitive
pipelines joined by channel-axis concatenation. -/
theorem inception_forward_four_paths_concat :
    (∀ (V : Type) (concat4 : V → V → V → V → V) (self : InceptionObj V) (x : V),
      (InceptionObj.forward concat4 self x).1 =
        concat4 (self.p1_1 x) (self.p2_2 (self.p2_1 x))
          (self.p3_2 (self.p3_1 x)) (self.p4_2 (self.p4_1 x))) ∧
    (∀ (c1 : Nat) (c2 c3 : Nat × Nat) (c4 : Nat) (x : List Nat),
      Layer.outShape (.inception c1 c2 c3 c4) x =
        (primOutShape (.conv2D c1 1 1 0 true) x).bind fun p1 =>
        ((primOutShape (.conv2D c2.1 1 1 0 true) x).bind
          (primOutShape (.conv2D c2.2 3 1 1 true))).bind fun p2 =>
        ((primOutShape (.conv2D c3.1 1 1 0 true) x).bind
          (primOutShape (.conv2D c3.2 5 1 2 true))).bind fun p3 =>
        ((primOutShape (.maxPool2D 3 1 1) x).bind
          (primOutShape (.conv2D c4 1 1 0 true))).bind fun p4 =>
        ndConcatDim1 p1 p2 p3 p4) :=
  ⟨fun _ _ _ _ => rfl, fun _ _ _ _ _ => rfl⟩

/-- Claim C2: for every Inception block, the channel entry of any output shape
equals the exact integer sum `c1 + c2[1] + c3[1] + c4` of its per-path
output-channel arguments, and for the nine instances in `b3`, `b4`, `b5` these
sums are 64+128+32+32=256, 128+192+96+64=480, 192+208+48+64=512,
160+224+64+64=512, 128+256+64+64=512, 112+288+64+64=528, 256+320+128+128=832,
256+320+128+128=832 and 384+384+128+128=1024. -/
theorem inception_output_channels_sum :
    (∀ (c1 : Nat) (c2 c3 : Nat × Nat) (c4 : Nat) (x y : List Nat),
      Layer.outShape (.inception c1 c2 c3 c4) x = some y →
      y.get? 1 = some (c1 + c2.2 + c3.2 + c4)) ∧
    (Layer.inceptionArgs net).map inceptionOutChannels =
      [64 + 128 + 32 + 32, 128 + 192 + 96 + 64, 192 + 208 + 48 + 64,
       160 + 224 + 64 + 64, 128 + 256 + 64 + 64, 112 + 288 + 64 + 64,
       256 + 320 + 128 + 128, 256 + 320 + 128 + 128, 384 + 384 + 128 + 128] ∧
    (Layer.inceptionArgs net).map inceptionOutChannels =
      [256, 480, 512, 512, 512, 528, 832, 832, 1024] := by
  refine ⟨?_, by decide, by decide⟩
  intro c1 c2 c3 c4 x y hy
  have hy2 : (Inception.init c1 c2 c3 c4).forward x = some y := hy
  rw [Inception.forward] at hy2
  rw [Option.bind_eq_some] at hy2
  obtain ⟨p1, hp1, hy2⟩ := hy2
  rw [Option.bind_eq_some] at hy2
  obtain ⟨p2, hp2, hy2⟩ := hy2
  rw [Option.bind_eq_some] at hy2
  obtain ⟨p3, hp3, hy2⟩ := hy2
  rw [Option.bind_eq_some] at hy2
  obtain ⟨p4, hp4, hy2⟩ := hy2
  rw [Option.bind_eq_some] at hp2
  obtain ⟨q2, hq2, hp2⟩ := hp2
  rw [Option.bind_eq_some] at hp3
  obtain ⟨q3, hq3, hp3⟩ := hp3
  rw [Option.bind_eq_some] at hp4
  obtain ⟨q4, hq4, hp4⟩ := hp4
  obtain ⟨n1, d1, e1, f1, g1, i1, _, hc1⟩ := conv_outShape_inv _ _ _ _ _ _ _ hp1
  obtain ⟨n2, d2, e2, f2, g2, i2, _, hc2⟩ := conv_outShape_inv _ _ _ _ _ _ _ hp2
  obtain ⟨n3, d3, e3, f3, g3, i3, _, hc3⟩ := conv_outShape_inv _ _ _ _ _ _ _ hp3
  obtain ⟨n4, d4, e4, f4, g4, i4, _, hc4⟩ := conv_outShape_inv _ _ _ _ _ _ _ hp4
  have hch := ndConcatDim1_channels p1 p2 p3 p4 y hy2
  rw [hc1, hc2, hc3, hc4] at hch
  simpa using hch

/-- Witness for claim C2: the first Inception block of `b3`, applied to a
192-channel 12x12 input, outputs 64+128+32+32 = 256 channels. -/
theorem inception_output_channels_sum_witness :
    Layer.outShape (.inception 64 (96, 128) (16, 32) 32) [1, 192, 12, 12] =
      some [1, 256, 12, 12] ∧
    ([1, 256, 12, 12] : List Nat).get? 1 = some (64 + 128 + 32 + 32) :=
  ⟨by decide, inception_output_channels_sum.1 64 (96, 128) (16, 32) 32
    [1, 192, 12, 12] [1, 256, 12, 12] (by decide)⟩

/-- Claim C3: the full model `net` is exactly the five sequential groups `b1`,
`b2`, `b3`, `b4`, `b5` followed by a dense layer with 10 outputs, applied in
that fixed order: for every input, `net`'s output is obtained by piping the
input through `b1`, `b2`, `b3`, `b4`, `b5` and then the dense layer. -/
theorem net_is_five_groups_then_dense :
    net = Layer.sequential [b1, b2, b3, b4, b5, .prim (.dense 10)] ∧
    ∀ x : List Nat,
      Layer.outShape net x =
        (Layer.outShape b1 x).bind fun y1 =>
        (Layer.outShape b2 y1).bind fun y2 =>
        (Layer.outShape b3 y2).bind fun y3 =>
        (Layer.outShape b4 y3).bind fun y4 =>
        (Layer.outShape b5 y4).bind fun y5 =>
        primOutShape (.dense 10) y5 := by
  refine ⟨rfl, fun x => ?_⟩
  show Layer.seqOutShape [b1, b2, b3, b4, b5, .prim (.dense 10)] x = _
  simp only [seqOutShape_cons, seqOutShape_nil, Layer.outShape, Option.bind_some]

/-- Claim C4: for every input tensor accepted by an Inception block (a four
dimensional shape with nonzero spatial extent), each of the four paths
produces an output whose spatial height and width equal those of the input —
the 3x3 convolution uses padding 1, the 5x5 convolution padding 2, the 3x3
max pooling stride 1 and padding 1, and the 1x1 convolutions preserve spatial
size — so the four path outputs are identical except in the channel dimension
and the channel-axis concatenation in `forward` is well-defined. -/
theorem inception_paths_preserve_spatial_size (c1 : Nat) (c2 c3 : Nat × Nat)
    (c4 n c h w : Nat) (hh : 1 ≤ h) (hw : 1 ≤ w) :
    primOutShape (.conv2D c1 1 1 0 true) [n, c, h, w] = some [n, c1, h, w] ∧
    (primOutShape (.conv2D c2.1 1 1 0 true) [n, c, h, w]).bind
        (primOutShape (.conv2D c2.2 3 1 1 true)) = some [n, c2.2, h, w] ∧
    (primOutShape (.conv2D c3.1 1 1 0 true) [n, c, h, w]).bind
        (primOutShape (.conv2D c3.2 5 1 2 true)) = some [n, c3.2, h, w] ∧
    (primOutShape (.maxPool2D 3 1 1) [n, c, h, w]).bind
        (primOutShape (.conv2D c4 1 1 0 true)) = some [n, c4, h, w] ∧
    Layer.outShape (.inception c1 c2 c3 c4) [n, c, h, w] =
      some [n, c1 + c2.2 + c3.2 + c4, h, w] := by
  refine ⟨?_, ?_, ?_, ?_, inception_outShape_eq c1 c2 c3 c4 n c h w hh hw⟩ <;>
  simp [primOutShape, convOutDim_same h 1 0 rfl hh, convOutDim_same w 1 0 rfl hw,
    convOutDim_same h 3 1 rfl hh, convOutDim_same w 3 1 rfl hw,
    convOutDim_same h 5 2 rfl hh, convOutDim_same w 5 2 rfl hw]

/-- Witness for claim C4: a concrete Inception block on a 7-channel 1x1 input;
all four paths keep the 1x1 spatial size and the concatenation is defined. -/
theorem inception_paths_preserve_spatial_size_witness :
    (1 : Nat) ≤ 1 ∧ (1 : Nat) ≤ 1 ∧
    (primOutShape (.conv2D 1 1 1 0 true) [1, 7, 1, 1] = some [1, 1, 1, 1] ∧
     (primOutShape (.conv2D 2 1 1 0 true) [1, 7, 1, 1]).bind
         (primOutShape (.conv2D 3 3 1 1 true)) = some [1, 3, 1, 1] ∧
     (primOutShape (.conv2D 4 1 1 0 true) [1, 7, 1, 1]).bind
         (primOutShape (.conv2D 5 5 1 2 true)) = some [1, 5, 1, 1] ∧
     (primOutShape (.maxPool2D 3 1 1) [1, 7, 1, 1]).bind
         (primOutShape (.conv2D 6 1 1 0 true)) = some [1, 6, 1, 1] ∧
     Layer.outShape (.inception 1 (2, 3) (4, 5) 6) [1, 7, 1, 1] =
       some [1, 1 + 3 + 5 + 6, 1, 1]) :=
  ⟨Nat.le_refl 1, Nat.le_refl 1,
    inception_paths_preserve_spatial_size 1 (2, 3) (4, 5) 6 1 7 1 1
      (Nat.le_refl 1) (Nat.le_refl 1)⟩

/-- Claim C5: the shape-printing loop starts from a tensor `X` of shape
(1, 1, 96, 96), iterates over the six top-level layers of `net` in their
sequential order, rebinds `X` to the current layer's output at each step, and
prints the shape of each layer's output; the printed shapes are (1,64,24,24),
(1,192,12,12), (1,480,6,6), (1,832,3,3), (1,1024,1,1), (1,10), and after the
loop `X` equals the output of the whole network. -/
theorem shape_loop_matches_net :
    netLayers.length = 6 ∧
    net = Layer.sequential netLayers ∧
    (∀ X0 : Option (List Nat),
      (shapeLoop netLayers X0).1 = X0.bind (Layer.outShape net)) ∧
    (shapeLoop netLayers (some [1, 1, 96, 96])).2 =
      [some [1, 64, 24, 24], some [1, 192, 12, 12], some [1, 480, 6, 6],
       some [1, 832, 3, 3], some [1, 1024, 1, 1], some [1, 10]] ∧
    (shapeLoop netLayers (some [1, 1, 96, 96])).1 =
      Layer.outShape net [1, 1, 96, 96] := by
  refine ⟨by decide, rfl, fun X0 => ?_, by decide, by decide⟩
  rw [shapeLoop_fst]
  rfl

/-- Claim C6: no operation defined in the notebook catches, transforms, or
suppresses a failure: a failure of a framework call inside a Sequential
aborts the whole application unchanged, and a failure of a path layer inside
`Inception.forward` aborts the block's forward unchanged. -/
theorem framework_failures_propagate :
    (∀ (ls1 : List Layer) (l : Layer) (ls2 : List Layer) (x y : List Nat),
      Layer.seqOutShape ls1 x = some y → Layer.outShape l y = none →
      Layer.outShape (.sequential (ls1 ++ l :: ls2)) x = none) ∧
    (∀ (self : Inception) (x : List Nat),
      primOutShape self.p1_1 x = none → self.forward x = none) := by
  constructor
  · intro ls1 l ls2 x y h1 h2
    show Layer.seqOutShape (ls1 ++ l :: ls2) x = none
    rw [seqOutShape_append, h1]
    simp [seqOutShape_cons, h2]
  · intro self x h
    rw [Inception.forward, h]
    rfl

/-- Witness for claim C6: a 7x7 convolution placed after `b1` fails on the
1x1 feature map that `b1` produces from a 2x2 input, and the failure
propagates: the surrounding Sequential (with `b2` still to come) returns the
failure itself. -/
theorem framework_failures_propagate_witness :
    Layer.seqOutShape [b1] [1, 1, 2, 2] = some [1, 64, 1, 1] ∧
    Layer.outShape (.prim (.conv2D 1 7 1 0 true)) [1, 64, 1, 1] = none ∧
    Layer.outShape (.sequential ([b1] ++ .prim (.conv2D 1 7 1 0 true) :: [b2]))
      [1, 1, 2, 2] = none :=
  ⟨by decide, by decide,
    framework_failures_propagate.1 [b1] (.prim (.conv2D 1 7 1 0 true)) [b2]
      [1, 1, 2, 2] [1, 64, 1, 1] (by decide) (by decide)⟩

/-- Claim C7: the Inception class, though defined by single inheritance from a
framework block class, is observationally equal to a plain pure function of
its parameters and its input: for every input, calling `forward` on a
constructed instance returns the same value as the plain function composing
the four independent sub-computations and concatenating their results, and
the instance after the call is the instance before it (no hidden mutable
state). -/
theorem inception_equals_plain_function :
    ∀ (V : Type) (concat4 : V → V → V → V → V) (self : InceptionObj V) (x : V),
      (InceptionObj.forward concat4 self x).1 =
        plainFourPathFunction concat4 self.p1_1 (fun v => self.p2_2 (self.p2_1 v))
          (fun v => self.p3_2 (self.p3_1 v)) (fun v => self.p4_2 (self.p4_1 v)) x ∧
      (InceptionObj.forward concat4 self x).2 = self :=
  fun _ _ _ _ => ⟨rfl, rfl⟩

/-- Claim C8: `net` contains exactly nine Inception block instances: two in
group `b3`, five in group `b4`, two in group `b5`, and none anywhere else
(none in `b1`, `b2` or the final dense layer, which are all of `net`'s other
children). -/
theorem net_has_nine_inception_instances :
    Layer.countInceptions net = 9 ∧
    Layer.countInceptions b3 = 2 ∧ Layer.countInceptions b4 = 5 ∧
    Layer.countInceptions b5 = 2 ∧ Layer.countInceptions b1 = 0 ∧
    Layer.countInceptions b2 = 0 ∧
    Layer.countInceptions (.prim (.dense 10)) = 0 ∧
    net = Layer.sequential [b1, b2, b3, b4, b5, .prim (.dense 10)] :=
  ⟨by decide, by decide, by decide, by decide, by decide, by decide, by decide, rfl⟩

/-- Claim C9: every hyperparameter is a plain number or tuple supplied
directly: the learning rate is the literal 0.1, the epoch count the literal 5,
the batch size the literal 128, and the channel-count arguments of the nine
Inception instances are exactly the integer tuples written at construction
time. -/
theorem hyperparameters_are_plain_literals :
    lr = 1 / 10 ∧ num_epochs = 5 ∧ batch_size = 128 ∧
    Layer.inceptionArgs net =
      [(64, (96, 128), (16, 32), 32), (128, (128, 192), (32, 96), 64),
       (192, (96, 208), (16, 48), 64), (160, (112, 224), (24, 64), 64),
       (128, (128, 256), (24, 64), 64), (112, (144, 288), (32, 64), 64),
       (256, (160, 320), (32, 128), 128), (256, (160, 320), (32, 128), 128),
       (384, (192, 384), (48, 128), 128)] :=
  ⟨rfl, rfl, rfl, by decide⟩

/-- Claim C10: `Inception.forward` is deterministic and side-effect free with
respect to the block's parameters: the instance after a call is the instance
before it, and a second call on the post-call instance with the same input
returns the identical output. -/
theorem forward_deterministic_and_stateless :
    ∀ (V : Type) (concat4 : V → V → V → V → V) (self : InceptionObj V) (x : V),
      (InceptionObj.forward concat4 self x).2 = self ∧
      (InceptionObj.forward concat4
          ((InceptionObj.forward concat4 self x).2) x).1 =
        (InceptionObj.forward concat4 self x).1 :=
  fun _ _ _ _ => ⟨rfl, rfl⟩
